import Mathlib

/-!
Shallow embedding of `jshint-mode.js`, an HTTP interface to JSHint.

The program has five parts that the claims are about:
  * `outputErrors` / `lintify` (lines 65-90): format lint findings as text;
  * `_statChanged` / `_refreshConfig` / `_getConfig` (lines 108-171): a
    config-file cache keyed by fs metadata (dev, ino, size, mtime);
  * the request handler (lines 178-200): routing and field normalization;
  * the `listening` handler (lines 202-204): the startup stdout line;
  * the `error` handler (lines 206-217): the EADDRINUSE port-retry loop.

Filesystem and linter effects are made explicit: one `_refreshConfig` call's
interaction with the filesystem is described by an `FsOutcome` value (did
`openSync` succeed, what `fstatSync` returned, did `readFileSync` /
`JSON.parse` succeed), and a linter invocation by a `LintRun` value (the
boolean the linter returned plus its `.errors` array).  JS strings are Lean
`String`s, JS numbers are `Int`, a possibly-`undefined` field is an
`Option`, and the falsy slots that JSHint leaves in its errors array are
`Option Finding` with `none` for a falsy slot.
-/

/-! ### String helper lemmas (JS `array.join('')` is `String.join`) -/

theorem strAppendEmpty (a : String) : a ++ "" = a := by
  apply String.ext
  simp [String.data_append]

theorem strAppendAssoc (a b c : String) : (a ++ b) ++ c = a ++ (b ++ c) := by
  apply String.ext
  simp [String.data_append]

theorem foldlAppend (l : List String) (a : String) :
    l.foldl (· ++ ·) a = a ++ String.join l := by
  induction l generalizing a with
  | nil => simp [String.join, strAppendEmpty]
  | cons s rest ih =>
    show rest.foldl (· ++ ·) (a ++ s) = a ++ String.join (s :: rest)
    rw [ih]
    show a ++ s ++ String.join rest = a ++ rest.foldl (· ++ ·) ("" ++ s)
    rw [ih ("" ++ s)]
    apply String.ext
    simp [String.data_append]

theorem joinCons (s : String) (l : List String) :
    String.join (s :: l) = s ++ String.join l := by
  show l.foldl (· ++ ·) ("" ++ s) = s ++ String.join l
  rw [foldlAppend]
  apply String.ext
  simp [String.data_append]

theorem joinAppend (a b : List String) :
    String.join (a ++ b) = String.join a ++ String.join b := by
  induction a with
  | nil =>
    show String.join b = String.join [] ++ String.join b
    apply String.ext
    simp [String.join, String.data_append]
  | cons s rest ih =>
    rw [List.cons_append, joinCons, joinCons, ih, strAppendAssoc]

/-! ### Lint dispatcher: `outputErrors` (line 65) and `lintify` (line 86) -/

/-- One lint finding, as produced by the wrapped linters: `{line, character,
reason, evidence}`; `evidence` may be absent (`undefined`). -/
structure Finding where
  line : Int
  character : Int
  reason : String
  evidence : Option String
deriving DecidableEq

/-- Membership of JavaScript's regex class `\s` (the whitespace characters
trimmed by the evidence regex on line 78). -/
def isJsWhitespace (c : Char) : Bool :=
  c = ' ' || c = '\t' || c = '\n' || c = '\r' || c.val = 0x0B || c.val = 0x0C ||
  c.val = 0xA0 || c.val = 0x1680 || (0x2000 ≤ c.val && c.val ≤ 0x200A) ||
  c.val = 0x2028 || c.val = 0x2029 || c.val = 0x202F || c.val = 0x205F ||
  c.val = 0x3000 || c.val = 0xFEFF

/-- Effect of line 78's `.replace(^\s*(\S*(\s+\S+)*)\s*$, "$1")`: the
anchored pattern matches every string whole (leading `\s*`, then the
non-whitespace-delimited middle captured verbatim, then trailing `\s*`), so
the replacement keeps exactly the middle: leading and trailing `\s`
characters are removed and interior whitespace is preserved. -/
def jsTrim (s : String) : String :=
  ⟨((s.data.dropWhile isJsWhitespace).reverse.dropWhile isJsWhitespace).reverse⟩

/-- The string `'Lint at line ' + e.line + ' character ' + e.character + ': ' + e.reason`
built on line 76. -/
def reasonLineOf (e : Finding) : String :=
  "Lint at line " ++ toString e.line ++ " character " ++ toString e.character ++
    ": " ++ e.reason

/-- The list of strings pushed onto `output` by the loop of `outputErrors`
(lines 73-82); `out(s)` pushes `s + '\n'`.  A falsy slot (`none`) pushes
nothing; a truthy finding pushes the reason line, and when `showCode` also
the trimmed `e.evidence || ''` and the `out('')` blank line. -/
def pushedLines : List (Option Finding) → Bool → List String
  | [], _ => []
  | oe :: rest, showCode =>
    (match oe with
     | none => []
     | some e =>
       [reasonLineOf e ++ "\n"] ++
         (if showCode then [jsTrim (e.evidence.getD "") ++ "\n", "\n"] else [])) ++
      pushedLines rest showCode

/-- `outputErrors(errors, showCode)` (line 65): the pushed lines joined by
`output.join('')`. -/
def outputErrors (errors : List (Option Finding)) (showCode : Bool) : String :=
  String.join (pushedLines errors showCode)

/-- Result of one linter invocation: the boolean `hinters[mode](source, config)`
returned, and the `hinters[mode].errors` array read afterwards. -/
structure LintRun where
  passed : Bool
  errors : List (Option Finding)

/-- Arbitrary key-value configuration object parsed from a jshintrc file. -/
abbrev Config := List (String × String)

/-- `lintify(mode, sourcedata, filename, showCode, config)` (line 86); the
behaviour of `hinters[mode]` (call plus its `.errors` property) is the
`hinter` argument. -/
def lintify (hinter : String → Config → LintRun) (sourcedata filename : String)
    (showCode : Bool) (config : Config) : String :=
  let run := hinter sourcedata config
  if run.passed then "js: No problems found in " ++ filename ++ "\n"
  else outputErrors run.errors showCode

/-! ### Config cache: `_statChanged`, `_refreshConfig`, `_getConfig` (lines 108-171) -/

/-- The fields of an `fs.Stats` that `_statChanged` compares; `mtime` stands
for `mtime.getTime()` (milliseconds). -/
structure Stat where
  dev : Int
  ino : Int
  size : Int
  mtime : Int
deriving DecidableEq

/-- `_statChanged(s, other)` (line 111): `true` when `other` is null or any
of dev, ino, size, mtime differs. -/
def statChanged (s : Stat) : Option Stat → Bool
  | none => true
  | some other =>
    s.dev != other.dev || s.ino != other.ino || s.size != other.size ||
      s.mtime != other.mtime

/-- One cache entry `{cfg, stat}`. -/
structure Entry where
  cfg : Config
  stat : Option Stat
deriving DecidableEq

/-- The `_cache` object: an association from property key to entry; an
assignment prepends, a lookup takes the first binding. -/
abbrev Cache := List (String × Entry)

/-- JS property-key coercion of the `filePath` argument: `_cache[filePath]`
uses `String(filePath)`, which is `"undefined"` for an absent field. -/
def keyOf : Option String → String
  | none => "undefined"
  | some s => s

/-- Truthiness of `filePath` in `if (!filePath)` (line 133): `undefined` and
the empty string are falsy. -/
def pathTruthy : Option String → Bool
  | none => false
  | some s => !(s == "")

/-- `_cache[filePath] || {cfg: {}, stat: null}` (line 137). -/
def lookupEntry (cache : Cache) (filePath : Option String) : Entry :=
  match cache.lookup (keyOf filePath) with
  | some e => e
  | none => { cfg := [], stat := none }

/-- What the filesystem does during one `_refreshConfig` call:
`openFail` = `fs.openSync` throws; `fstatFail fd` = open returned
descriptor `fd` but `fs.fstatSync` throws; `statted fd statbuf rp` = open
and fstat succeeded, and `rp` says what reading/parsing would do. -/
inductive ReadParse where
  | readFail
  | parseFail
  | ok (cfg : Config)
deriving DecidableEq

inductive FsOutcome where
  | openFail
  | fstatFail (fd : Nat)
  | statted (fd : Nat) (statbuf : Stat) (rp : ReadParse)
deriving DecidableEq

/-- Observable result of one `_refreshConfig` call: the entry returned (and
stored by `_getConfig`), whether `fs.readFileSync` was invoked, whether a
descriptor was opened, whether the `finally` block closed it (`fd > -1`),
and which of the two log messages were emitted. -/
structure RefreshOut where
  entry : Entry
  didRead : Bool
  opened : Bool
  closed : Bool
  loggedLoad : Bool
  loggedError : Bool
deriving DecidableEq

/-- `_refreshConfig(filePath)` (line 131), with the ambient `_cache` and the
filesystem's behaviour passed explicitly.  Mirrors the source
control-flow: early return on falsy path; `fd = -1`; in `try`, open, fstat,
then either reload (stat changed) or `prev.stat = statbuf; return prev`;
`catch` logs and returns `prev`; `finally` closes when `fd > -1`.  A thrown
`JSON.parse` or `readFileSync` error reaches `catch`, so those paths return
`prev` unchanged. -/
def refreshConfig (cache : Cache) (filePath : Option String) (fsys : FsOutcome) :
    RefreshOut :=
  if pathTruthy filePath = false then
    { entry := { cfg := [], stat := none }, didRead := false, opened := false,
      closed := false, loggedLoad := false, loggedError := false }
  else
    let prev := lookupEntry cache filePath
    match fsys with
    | .openFail =>
      let fd : Int := -1
      { entry := prev, didRead := false, opened := false,
        closed := decide (fd > -1), loggedLoad := false, loggedError := true }
    | .fstatFail fdv =>
      let fd : Int := fdv
      { entry := prev, didRead := false, opened := true,
        closed := decide (fd > -1), loggedLoad := false, loggedError := true }
    | .statted fdv statbuf rp =>
      let fd : Int := fdv
      if statChanged statbuf prev.stat then
        match rp with
        | .readFail =>
          { entry := prev, didRead := true, opened := true,
            closed := decide (fd > -1), loggedLoad := false, loggedError := true }
        | .parseFail =>
          { entry := prev, didRead := true, opened := true,
            closed := decide (fd > -1), loggedLoad := false, loggedError := true }
        | .ok rc =>
          { entry := { cfg := rc, stat := some statbuf }, didRead := true,
            opened := true, closed := decide (fd > -1), loggedLoad := true,
            loggedError := false }
      else
        { entry := { cfg := prev.cfg, stat := some statbuf }, didRead := false,
          opened := true, closed := decide (fd > -1), loggedLoad := false,
          loggedError := false }

/-- Result of `_getConfig`: the returned `cfg`, the updated `_cache`, and
the observable behaviour of the inner `_refreshConfig` call. -/
structure GetConfigOut where
  cfg : Config
  cache : Cache
  call : RefreshOut
deriving DecidableEq

/-- `_getConfig(filePath)` (line 108): runs `_refreshConfig`, assigns the
result to `_cache[filePath]`, and returns its `.cfg`. -/
def getConfig (cache : Cache) (filePath : Option String) (fsys : FsOutcome) :
    GetConfigOut :=
  let r := refreshConfig cache filePath fsys
  { cfg := r.entry.cfg, cache := (keyOf filePath, r.entry) :: cache, call := r }

/-! ### Request handler (lines 178-200) -/

/-- The multipart form fields the handler reads; each may be absent. -/
structure Fields where
  source : Option String
  filename : Option String
  mode : Option String
  showCode : Option String
  jshintrc : Option String

/-- JS truthiness of a string-or-undefined field. -/
def strTruthy : Option String → Bool
  | none => false
  | some s => !(s == "")

/-- Line 182: `(fields.mode && fields.mode == "jslint") ? "jslint" : "jshint"`. -/
def normalizeMode (m : Option String) : String :=
  if strTruthy m && (m.getD "" == "jslint") then "jslint" else "jshint"

/-- Line 183: `(fields.showCode && fields.showCode === "1") ? true : false`. -/
def normalizeShowCode (v : Option String) : Bool :=
  if strTruthy v && (v.getD "" == "1") then true else false

/-- A response written with `res.writeHead` / `res.end`. -/
structure Response where
  status : Nat
  contentType : String
  body : String
deriving DecidableEq

/-- What the server callback does first with a request: start parsing the
form (the `POST /check` branch, line 179) or answer immediately. -/
inductive HandlerStep where
  | parseForm
  | respond (r : Response)
deriving DecidableEq

/-- The routing test and default branch of the `http.createServer` callback
(lines 178-200): `req.url === '/check' && req.method.toUpperCase() === 'POST'`
enters the form branch, anything else gets the 200 text/plain greeting. -/
def handleRequest (url method : String) : HandlerStep :=
  if url == "/check" && method.toUpper == "POST" then .parseForm
  else .respond { status := 200, contentType := "text/plain",
                  body := "hello from jshint-mode" }

/-! ### Listener bootstrap (lines 202-217) -/

/-- What the `error` handler does: exit the process, call
`server.listen(port, host)` again, or (non-EADDRINUSE errors) nothing. -/
inductive ErrorAction where
  | exitProcess (code : Nat)
  | listenRetry (port : Int)
  | noAction
deriving DecidableEq

/-- The `server.on('error')` handler (line 206) acting on the mutable
`port` with the configured `lastPort`. -/
def onServerError (errno : String) (port lastPort : Int) : ErrorAction :=
  if errno == "EADDRINUSE" then
    if port ≥ lastPort then .exitProcess 2
    else .listenRetry (port + 1)
  else .noAction

/-- The line printed by the `server.on('listening')` handler (line 203):
`'Started JSHint server at http://' + host + ':' + port + '.'`. -/
def listenLog (host : String) (port : Int) : String :=
  "Started JSHint server at http://" ++ host ++ ":" ++ toString port ++ "."

/-- How a whole startup run ends: listening on a port (with the stdout line
the `listening` handler prints from the same mutable `port`), or
`process.exit(2)`. -/
inductive BindOutcome where
  | listening (port : Int) (stdoutLine : String)
  | exited (code : Nat)
deriving DecidableEq

/-- The retry loop formed by `server.listen(port, host)` plus the two event
handlers: binding a busy port fires `error` with errno `"EADDRINUSE"`, a
free port fires `listening`.  `fuel` bounds the number of attempts, `none`
meaning the bound was hit before the run ended. -/
def bindLoop (busy : Int → Bool) (host : String) (lastPort : Int) :
    Int → Nat → Option BindOutcome
  | _, 0 => none
  | port, fuel + 1 =>
    if busy port then
      match onServerError "EADDRINUSE" port lastPort with
      | .exitProcess c => some (.exited c)
      | .listenRetry p => bindLoop busy host lastPort p fuel
      | .noAction => none
    else some (.listening port (listenLog host port))

/-! ### Claim theorems: listener bootstrap -/

theorem onServerErrorEaddrinuse (port lastPort : Int) :
    onServerError "EADDRINUSE" port lastPort =
      if port ≥ lastPort then .exitProcess 2 else .listenRetry (port + 1) := by
  simp [onServerError]

/-- C3: on a bind error whose cause is EADDRINUSE, a current port strictly
below `lastPort` is incremented by exactly one and re-bound; a current port
at or past `lastPort` exits the process with status 2; consequently every
retried bind attempt uses a port at most `lastPort`. -/
theorem c3_eaddrinuse_retry_or_exit (port lastPort : Int) :
    (port < lastPort →
      onServerError "EADDRINUSE" port lastPort = .listenRetry (port + 1)) ∧
    (lastPort ≤ port →
      onServerError "EADDRINUSE" port lastPort = .exitProcess 2) ∧
    (∀ p, onServerError "EADDRINUSE" port lastPort = .listenRetry p →
      p ≤ lastPort) := by
  refine ⟨fun h => ?_, fun h => ?_, fun p hp => ?_⟩
  · rw [onServerErrorEaddrinuse, if_neg (by omega)]
  · rw [onServerErrorEaddrinuse, if_pos (by omega)]
  · rw [onServerErrorEaddrinuse] at hp
    by_cases hge : port ≥ lastPort
    · rw [if_pos hge] at hp
      exact absurd hp (by simp)
    · rw [if_neg hge] at hp
      have : p = port + 1 := by
        have := ErrorAction.listenRetry.inj hp.symm
        omega
      omega

theorem c3_witness :
    onServerError "EADDRINUSE" 3003 3005 = .listenRetry 3004 ∧
    onServerError "EADDRINUSE" 3005 3005 = .exitProcess 2 :=
  ⟨(c3_eaddrinuse_retry_or_exit 3003 3005).1 (by omega),
   (c3_eaddrinuse_retry_or_exit 3005 3005).2.1 (by omega)⟩

/-- C8: whenever the listener run ends in `listening`, the stdout line has
the exact form `Started JSHint server at http://<host>:<port>.` (trailing
period included) where `<port>` is the port that was actually bound after
any retries (in particular that port was free). -/
theorem c8_startup_line (busy : Int → Bool) (host : String) (lastPort : Int)
    (p0 : Int) (fuel : Nat) (p : Int) (line : String)
    (h : bindLoop busy host lastPort p0 fuel = some (.listening p line)) :
    line = "Started JSHint server at http://" ++ host ++ ":" ++ toString p ++ "." ∧
    busy p = false := by
  induction fuel generalizing p0 with
  | zero => simp [bindLoop] at h
  | succ fuel ih =>
    rw [bindLoop] at h
    by_cases hb : busy p0
    · rw [if_pos hb, onServerErrorEaddrinuse] at h
      by_cases hge : p0 ≥ lastPort
      · rw [if_pos hge] at h
        simp at h
      · rw [if_neg hge] at h
        exact ih (p0 + 1) h
    · rw [if_neg hb] at h
      have h2 := Option.some.inj h
      have hp : p0 = p := (BindOutcome.listening.inj h2).1
      have hl : listenLog host p0 = line := (BindOutcome.listening.inj h2).2
      subst hp
      exact ⟨hl.symm, by simpa using hb⟩

theorem c8_witness :
    listenLog "127.0.0.1" 3004 =
      "Started JSHint server at http://" ++ "127.0.0.1" ++ ":" ++
        toString (3004 : Int) ++ "." ∧
    (fun q => decide (q = (3003 : Int))) 3004 = false :=
  c8_startup_line (fun q => decide (q = (3003 : Int))) "127.0.0.1" 3005 3003 5
    3004 (listenLog "127.0.0.1" 3004) (by decide)

/-! ### Claim theorems: request handler -/

/-- C6: the handler selects jslint iff the `mode` field is present and is
exactly the case-sensitive string `"jslint"`; every other value, absent
included, selects jshint (absent behaves as `mode="jshint"`); and
`showCode` is true iff the field is present and exactly `"1"`. -/
theorem c6_mode_showcode_normalization (fields : Fields) :
    (normalizeMode fields.mode = "jslint" ↔ fields.mode = some "jslint") ∧
    (fields.mode = none →
      normalizeMode fields.mode = normalizeMode (some "jshint")) ∧
    (normalizeMode fields.mode = "jslint" ∨ normalizeMode fields.mode = "jshint") ∧
    (normalizeShowCode fields.showCode = true ↔ fields.showCode = some "1") := by
  refine ⟨?_, ?_, ?_, ?_⟩
  · rcases hm : fields.mode with _ | m
    · simp [normalizeMode, strTruthy]
    · by_cases h : m = "jslint"
      · subst h
        simp [normalizeMode, strTruthy]
      · simp [normalizeMode, strTruthy, h]
  · intro hm
    rw [hm]
    simp [normalizeMode, strTruthy]
  · by_cases h : normalizeMode fields.mode = "jslint"
    · exact Or.inl h
    · refine Or.inr ?_
      rcases hm : fields.mode with _ | m
      · simp [normalizeMode, strTruthy]
      · unfold normalizeMode
        split
        · rw [hm] at h
          unfold normalizeMode at h
          split at h
          · exact absurd rfl h
          · simp_all
        · rfl
  · rcases hs : fields.showCode with _ | v
    · simp [normalizeShowCode, strTruthy]
    · by_cases h : v = "1"
      · subst h
        simp [normalizeShowCode, strTruthy]
      · simp [normalizeShowCode, strTruthy, h]

theorem c6_witness :
    normalizeMode none = normalizeMode (some "jshint") ∧
    normalizeShowCode (some "1") = true :=
  ⟨(c6_mode_showcode_normalization
      { source := none, filename := none, mode := none, showCode := some "1",
        jshintrc := none }).2.1 rfl,
   (c6_mode_showcode_normalization
      { source := none, filename := none, mode := none, showCode := some "1",
        jshintrc := none }).2.2.2.mpr rfl⟩

/-- C7: every request that is not a POST (method case-insensitive, as the
handler uppercases it) to the exact URL `/check` is answered immediately
with status 200, Content-Type `text/plain`, body `hello from jshint-mode`. -/
theorem c7_default_route (url method : String)
    (h : ¬(url = "/check" ∧ method.toUpper = "POST")) :
    handleRequest url method =
      .respond { status := 200, contentType := "text/plain",
                 body := "hello from jshint-mode" } := by
  unfold handleRequest
  rw [if_neg]
  simp only [Bool.and_eq_true, beq_iff_eq]
  exact fun hc => h hc

theorem c7_witness :
    handleRequest "/" "GET" =
      .respond { status := 200, contentType := "text/plain",
                 body := "hello from jshint-mode" } :=
  c7_default_route "/" "GET" (by decide)

/-! ### Claim theorems: config cache resource handling -/

/-- C9: every `_refreshConfig` call that opened the config file's
descriptor closes it in the `finally` block (`fd > -1` holds for every
descriptor that `openSync` returned), on the reload path, the
unchanged-metadata path and every error path alike. -/
theorem c9_fd_closed (cache : Cache) (filePath : Option String)
    (fsys : FsOutcome)
    (h : (refreshConfig cache filePath fsys).opened = true) :
    (refreshConfig cache filePath fsys).closed = true := by
  unfold refreshConfig at h ⊢
  by_cases hp : pathTruthy filePath = false
  · rw [if_pos hp] at h
    exact absurd h (by simp)
  · rw [if_neg hp] at h ⊢
    rcases fsys with _ | fdv | ⟨fdv, statbuf, rp⟩
    · exact absurd h (by simp)
    · simp only []
      rw [decide_eq_true_eq]
      omega
    · by_cases hc : statChanged statbuf (lookupEntry cache filePath).stat
      · rcases rp with _ | _ | rc <;>
          · simp only [hc, if_true]
            rw [decide_eq_true_eq]
            omega
      · simp only [hc]
        rw [if_neg (by simp [hc]), decide_eq_true_eq]
        omega

theorem c9_witness :
    (refreshConfig [] (some ".jshintrc")
      (.statted 0 { dev := 1, ino := 2, size := 3, mtime := 4 } (.ok []))).closed
      = true :=
  c9_fd_closed [] (some ".jshintrc")
    (.statted 0 { dev := 1, ino := 2, size := 3, mtime := 4 } (.ok []))
    (by decide)

/-! ### Claim theorems: lint dispatcher output -/

theorem strEmptyAppend (a : String) : "" ++ a = a := by
  apply String.ext
  simp [String.data_append]

theorem outputErrorsCons (oe : Option Finding) (rest : List (Option Finding))
    (sc : Bool) :
    outputErrors (oe :: rest) sc =
      (match oe with
       | none => ""
       | some e =>
         reasonLineOf e ++ "\n" ++
           (if sc then jsTrim (e.evidence.getD "") ++ "\n" ++ "\n" else "")) ++
      outputErrors rest sc := by
  rcases oe with _ | e
  · show String.join (pushedLines (none :: rest) sc) = _
    rw [strEmptyAppend]
    rfl
  · show String.join (pushedLines (some e :: rest) sc) = _
    have h1 : pushedLines (some e :: rest) sc =
        ([reasonLineOf e ++ "\n"] ++
          (if sc then [jsTrim (e.evidence.getD "") ++ "\n", "\n"] else [])) ++
          pushedLines rest sc := rfl
    rw [h1, joinAppend]
    congr 1
    rcases sc with _ | _ <;>
      simp [String.join, joinCons, strAppendEmpty, strAppendAssoc]

/-- C2: a passing run returns exactly the single line
`js: No problems found in <filename>\n`; a failing run returns, per truthy
finding in the linter's order, `Lint at line <line> character <character>: <reason>\n`,
followed when `showCode` by the whitespace-trimmed evidence line and then a
blank line, and every falsy slot in the errors array contributes nothing. -/
theorem c2_dispatcher_format (hinter : String → Config → LintRun)
    (sourcedata filename : String) (showCode : Bool) (config : Config) :
    lintify hinter sourcedata filename showCode config =
      if (hinter sourcedata config).passed then
        "js: No problems found in " ++ filename ++ "\n"
      else
        String.join ((hinter sourcedata config).errors.map fun oe =>
          match oe with
          | none => ""
          | some e =>
            "Lint at line " ++ toString e.line ++ " character " ++
              toString e.character ++ ": " ++ e.reason ++ "\n" ++
              (if showCode then jsTrim (e.evidence.getD "") ++ "\n" ++ "\n"
               else "")) := by
  unfold lintify
  by_cases hp : (hinter sourcedata config).passed
  · simp [hp]
  · simp only [Bool.not_eq_true] at hp
    simp only [hp, Bool.false_eq_true, if_false]
    generalize (hinter sourcedata config).errors = errs
    induction errs with
    | nil => rfl
    | cons oe rest ih =>
      rw [outputErrorsCons, List.map_cons, joinCons, ih]
      congr 1

/-- C10: with `showCode` true, a truthy finding whose evidence is absent or
empty still yields the full three-line block: the reason line, an empty
evidence line, and the blank separator line. -/
theorem c10_empty_evidence_block (e : Finding) (rest : List (Option Finding))
    (h : e.evidence = none ∨ e.evidence = some "") :
    outputErrors (some e :: rest) true =
      "Lint at line " ++ toString e.line ++ " character " ++
        toString e.character ++ ": " ++ e.reason ++ "\n" ++ "\n" ++ "\n" ++
        outputErrors rest true := by
  rw [outputErrorsCons]
  have hev : jsTrim (e.evidence.getD "") = "" := by
    rcases h with h | h <;> rw [h] <;> rfl
  simp [hev, reasonLineOf, strAppendAssoc, strEmptyAppend]

theorem c10_witness :
    outputErrors
        [some { line := 3, character := 5, reason := "Missing semicolon",
                evidence := none }] true =
      "Lint at line " ++ toString (3 : Int) ++ " character " ++
        toString (5 : Int) ++ ": " ++ "Missing semicolon" ++ "\n" ++ "\n" ++
        "\n" ++ outputErrors [] true :=
  c10_empty_evidence_block
    { line := 3, character := 5, reason := "Missing semicolon",
      evidence := none } [] (Or.inl rfl)

/-! ### Claim theorems: config cache behaviour -/

theorem decideFdGtNegOne (fd : Nat) : decide ((fd : Int) > -1) = true :=
  decide_eq_true (by omega)

theorem refreshConfigOpenFail (cache : Cache) (filePath : Option String)
    (hpath : pathTruthy filePath = true) :
    refreshConfig cache filePath .openFail =
      { entry := lookupEntry cache filePath, didRead := false, opened := false,
        closed := false, loggedLoad := false, loggedError := true } := by
  simp [refreshConfig, hpath]

theorem refreshConfigFstatFail (cache : Cache) (filePath : Option String)
    (fd : Nat) (hpath : pathTruthy filePath = true) :
    refreshConfig cache filePath (.fstatFail fd) =
      { entry := lookupEntry cache filePath, didRead := false, opened := true,
        closed := true, loggedLoad := false, loggedError := true } := by
  simp [refreshConfig, hpath, decideFdGtNegOne]

theorem refreshConfigChanged (cache : Cache) (filePath : Option String)
    (fd : Nat) (statbuf : Stat) (rp : ReadParse)
    (hpath : pathTruthy filePath = true)
    (hch : statChanged statbuf (lookupEntry cache filePath).stat = true) :
    refreshConfig cache filePath (.statted fd statbuf rp) =
      match rp with
      | .readFail =>
        { entry := lookupEntry cache filePath, didRead := true, opened := true,
          closed := true, loggedLoad := false, loggedError := true }
      | .parseFail =>
        { entry := lookupEntry cache filePath, didRead := true, opened := true,
          closed := true, loggedLoad := false, loggedError := true }
      | .ok rc =>
        { entry := { cfg := rc, stat := some statbuf }, didRead := true,
          opened := true, closed := true, loggedLoad := true,
          loggedError := false } := by
  rcases rp with _ | _ | rc <;>
    simp [refreshConfig, hpath, hch, decideFdGtNegOne]

theorem refreshConfigUnchanged (cache : Cache) (filePath : Option String)
    (fd : Nat) (statbuf : Stat) (rp : ReadParse)
    (hpath : pathTruthy filePath = true)
    (hch : statChanged statbuf (lookupEntry cache filePath).stat = false) :
    refreshConfig cache filePath (.statted fd statbuf rp) =
      { entry := { cfg := (lookupEntry cache filePath).cfg,
                   stat := some statbuf },
        didRead := false, opened := true, closed := true, loggedLoad := false,
        loggedError := false } := by
  simp [refreshConfig, hpath, hch, decideFdGtNegOne]

theorem statChangedIff (s : Stat) (o : Option Stat) :
    statChanged s o = true ↔
      (o = none ∨ ∃ t, o = some t ∧
        (s.dev ≠ t.dev ∨ s.ino ≠ t.ino ∨ s.size ≠ t.size ∨
          s.mtime ≠ t.mtime)) := by
  rcases o with _ | t
  · simp [statChanged]
  · simp [statChanged, bne_iff_ne, or_assoc]

/-- C1: when the config file can be opened and fstat-read, `_getConfig`
re-reads and re-parses it iff the fresh stat differs from the stored
snapshot in at least one of dev, ino, size, mtime, or no snapshot was
stored; when all four fields are equal, the call returns the previously
cached configuration object itself without reading the file's content. -/
theorem c1_reload_iff_metadata_changed (cache : Cache)
    (filePath : Option String) (fd : Nat) (statbuf : Stat) (rp : ReadParse)
    (hpath : pathTruthy filePath = true) :
    ((getConfig cache filePath (.statted fd statbuf rp)).call.didRead = true ↔
      ((lookupEntry cache filePath).stat = none ∨
        ∃ o, (lookupEntry cache filePath).stat = some o ∧
          (statbuf.dev ≠ o.dev ∨ statbuf.ino ≠ o.ino ∨
            statbuf.size ≠ o.size ∨ statbuf.mtime ≠ o.mtime))) ∧
    (∀ o, (lookupEntry cache filePath).stat = some o → statbuf.dev = o.dev →
      statbuf.ino = o.ino → statbuf.size = o.size → statbuf.mtime = o.mtime →
      (getConfig cache filePath (.statted fd statbuf rp)).cfg =
          (lookupEntry cache filePath).cfg ∧
        (getConfig cache filePath (.statted fd statbuf rp)).call.didRead
          = false) := by
  constructor
  · rw [← statChangedIff statbuf (lookupEntry cache filePath).stat]
    by_cases hch : statChanged statbuf (lookupEntry cache filePath).stat = true
    · rw [hch]
      unfold getConfig
      rw [refreshConfigChanged cache filePath fd statbuf rp hpath hch]
      rcases rp with _ | _ | rc <;> simp
    · rw [Bool.not_eq_true] at hch
      rw [hch]
      unfold getConfig
      rw [refreshConfigUnchanged cache filePath fd statbuf rp hpath hch]
  · intro o ho hdev hino hsize hmtime
    have hch : statChanged statbuf (lookupEntry cache filePath).stat = false := by
      rw [ho]
      simp [statChanged, bne_iff_ne, hdev, hino, hsize, hmtime]
    unfold getConfig
    rw [refreshConfigUnchanged cache filePath fd statbuf rp hpath hch]
    exact ⟨rfl, rfl⟩

theorem c1_witness :
    ((getConfig [(".jshintrc",
        { cfg := [("undef", "true")],
          stat := some { dev := 1, ino := 2, size := 3, mtime := 4 } })]
        (some ".jshintrc")
        (.statted 7 { dev := 1, ino := 2, size := 3, mtime := 4 }
          (.ok [("x", "y")]))).cfg = [("undef", "true")] ∧
     (getConfig [(".jshintrc",
        { cfg := [("undef", "true")],
          stat := some { dev := 1, ino := 2, size := 3, mtime := 4 } })]
        (some ".jshintrc")
        (.statted 7 { dev := 1, ino := 2, size := 3, mtime := 4 }
          (.ok [("x", "y")]))).call.didRead = false) :=
  (c1_reload_iff_metadata_changed
      [(".jshintrc",
        { cfg := [("undef", "true")],
          stat := some { dev := 1, ino := 2, size := 3, mtime := 4 } })]
      (some ".jshintrc") 7 { dev := 1, ino := 2, size := 3, mtime := 4 }
      (.ok [("x", "y")]) (by decide)).2
    { dev := 1, ino := 2, size := 3, mtime := 4 } (by decide) rfl rfl rfl rfl

/-- C5: every failure while loading the config file (open failure, fstat
failure, read failure, JSON parse failure after comment stripping) is
non-fatal: the call logs the failure and returns the previously cached
configuration for the path, the empty configuration when none is cached.
In the model `getConfig` is a total function into `GetConfigOut` — the
`catch` block converts every thrown error into a normal return, so no
exception propagates to the request handler. -/
theorem c5_load_failure_nonfatal (cache : Cache) (filePath : Option String)
    (fd : Nat) (statbuf : Stat) (hpath : pathTruthy filePath = true) :
    ((getConfig cache filePath .openFail).cfg =
        (lookupEntry cache filePath).cfg ∧
      (getConfig cache filePath .openFail).call.loggedError = true) ∧
    ((getConfig cache filePath (.fstatFail fd)).cfg =
        (lookupEntry cache filePath).cfg ∧
      (getConfig cache filePath (.fstatFail fd)).call.loggedError = true) ∧
    (statChanged statbuf (lookupEntry cache filePath).stat = true →
      ((getConfig cache filePath (.statted fd statbuf .readFail)).cfg =
          (lookupEntry cache filePath).cfg ∧
        (getConfig cache filePath
          (.statted fd statbuf .readFail)).call.loggedError = true) ∧
      ((getConfig cache filePath (.statted fd statbuf .parseFail)).cfg =
          (lookupEntry cache filePath).cfg ∧
        (getConfig cache filePath
          (.statted fd statbuf .parseFail)).call.loggedError = true)) ∧
    (cache.lookup (keyOf filePath) = none →
      (lookupEntry cache filePath).cfg = []) := by
  refine ⟨?_, ?_, fun hch => ⟨?_, ?_⟩, fun hn => ?_⟩
  · unfold getConfig
    rw [refreshConfigOpenFail cache filePath hpath]
    exact ⟨rfl, rfl⟩
  · unfold getConfig
    rw [refreshConfigFstatFail cache filePath fd hpath]
    exact ⟨rfl, rfl⟩
  · unfold getConfig
    rw [refreshConfigChanged cache filePath fd statbuf .readFail hpath hch]
    exact ⟨rfl, rfl⟩
  · unfold getConfig
    rw [refreshConfigChanged cache filePath fd statbuf .parseFail hpath hch]
    exact ⟨rfl, rfl⟩
  · simp [lookupEntry, hn]

theorem c5_witness :
    (getConfig [] (some ".jshintrc") .openFail).cfg =
        (lookupEntry [] (some ".jshintrc")).cfg ∧
      (getConfig [] (some ".jshintrc") .openFail).call.loggedError = true :=
  (c5_load_failure_nonfatal [] (some ".jshintrc") 3
    { dev := 1, ino := 2, size := 3, mtime := 4 } (by decide)).1

theorem lookupEntryInsert (cache : Cache) (filePath : Option String)
    (e : Entry) :
    lookupEntry ((keyOf filePath, e) :: cache) filePath = e := by
  simp [lookupEntry, List.lookup]

/-- C4 as stated is false on the code: with an empty cache, open and fstat
succeed (`fd = 3`, fresh stat `{1,2,3,4}`) but JSON parsing fails; the
entry stored by `_getConfig` still carries the OLD snapshot (here `null`),
not the freshly read stat — `prev.stat = statbuf` runs only on the
unchanged branch, and the `catch` path returns `prev` untouched — so the
very next `getConfig` on the unchanged malformed file attempts the reload
again. -/
theorem c4_counterexample :
    ((getConfig [] (some ".jshintrc")
        (.statted 3 { dev := 1, ino := 2, size := 3, mtime := 4 }
          .parseFail)).call.entry.stat ≠
      some { dev := 1, ino := 2, size := 3, mtime := 4 }) ∧
    ((getConfig
        (getConfig [] (some ".jshintrc")
          (.statted 3 { dev := 1, ino := 2, size := 3, mtime := 4 }
            .parseFail)).cache
        (some ".jshintrc")
        (.statted 3 { dev := 1, ino := 2, size := 3, mtime := 4 }
          .parseFail)).call.didRead = true) := by
  decide

/-- C4 amended: when the file can be opened and stat-read but JSON parsing
fails, the previous entry — its configuration and its OLD metadata
snapshot — is returned and stored unmodified (the snapshot is not
refreshed), so a subsequent `getConfig` call on the unchanged malformed
file attempts another reload; when the file cannot be opened at all the
previous entry is likewise returned unmodified. -/
theorem c4_parsefail_keeps_old_stat (cache : Cache) (filePath : Option String)
    (fd : Nat) (statbuf : Stat)
    (hpath : pathTruthy filePath = true)
    (hch : statChanged statbuf (lookupEntry cache filePath).stat = true) :
    ((getConfig cache filePath
        (.statted fd statbuf .parseFail)).call.entry =
      lookupEntry cache filePath) ∧
    ((getConfig
        (getConfig cache filePath (.statted fd statbuf .parseFail)).cache
        filePath (.statted fd statbuf .parseFail)).call.didRead = true) ∧
    ((getConfig cache filePath .openFail).call.entry =
      lookupEntry cache filePath) := by
  have h1 : refreshConfig cache filePath (.statted fd statbuf .parseFail) =
      { entry := lookupEntry cache filePath, didRead := true, opened := true,
        closed := true, loggedLoad := false, loggedError := true } := by
    rw [refreshConfigChanged cache filePath fd statbuf .parseFail hpath hch]
  refine ⟨?_, ?_, ?_⟩
  · show (refreshConfig cache filePath (.statted fd statbuf .parseFail)).entry = _
    rw [h1]
  · have hc2 : (getConfig cache filePath (.statted fd statbuf .parseFail)).cache =
        (keyOf filePath, lookupEntry cache filePath) :: cache := by
      unfold getConfig
      rw [h1]
    rw [hc2]
    have hch2 : statChanged statbuf
        (lookupEntry ((keyOf filePath, lookupEntry cache filePath) :: cache)
          filePath).stat = true := by
      rw [lookupEntryInsert cache filePath (lookupEntry cache filePath)]
      exact hch
    unfold getConfig
    rw [refreshConfigChanged _ filePath fd statbuf .parseFail hpath hch2]
  · unfold getConfig
    rw [refreshConfigOpenFail cache filePath hpath]

theorem c4_witness :
    (getConfig [] (some ".jshintrc")
        (.statted 3 { dev := 9, ino := 9, size := 9, mtime := 9 }
          .parseFail)).call.entry =
      lookupEntry [] (some ".jshintrc") :=
  (c4_parsefail_keeps_old_stat [] (some ".jshintrc") 3
    { dev := 9, ino := 9, size := 9, mtime := 9 } (by decide) (by decide)).1
